import Mathlib

/-!
Verification of the mint-status helpers of the indexer repository
(`src/packages/indexer/src/orderbook/mints/calldata/helpers.ts`).

The module consists of two sanitizers (`toSafeTimestamp`, `toSafeNumber`),
two data-store counters (`getAmountMinted`, `getCurrentSupply`) and the
status resolver `getStatus`.  We embed the data model and those functions
shallowly: decimal strings and BigNumbers become `Int` (arbitrary
precision, as `bn` is), optional TS fields become `Option`, the relational
store becomes lists of records, and the SQL row-fetch combinators `one` /
`oneOrNone` become `Except`-valued functions on row lists.  JS truthiness
of the optional numeric fields (`0` is falsy, a number field that is
`undefined` is falsy) is modelled explicitly in the guards.
-/

/-- Status of a collection mint, mirroring the TS union
`CollectionMintStatus = "open" | "closed"`.  (`open` is a Lean keyword,
hence the primed constructor name.) -/
inductive CollectionMintStatus where
  | open'
  | closed
deriving DecidableEq, Repr

/-- Reason codes attached to a closed verdict, mirroring
`CollectionMintStatusReason`. -/
inductive CollectionMintStatusReason where
  | notYetStarted
  | ended
  | maxSupplyExceeded
deriving DecidableEq, Repr

/-- The mint descriptor (`CollectionMint` in TS).  Optional numeric fields
are `Option Int`; in TS they are `number | undefined` or decimal
`string | undefined`, with `bn` giving them arbitrary precision. -/
structure CollectionMint where
  collection : String
  contract : String
  tokenId : Option Int
  startTime : Option Int
  endTime : Option Int
  maxSupply : Option Int
  status : Option CollectionMintStatus
deriving DecidableEq, Repr

/-- The verdict produced by `getStatus`:
`{ status: CollectionMintStatus; reason?: CollectionMintStatusReason }`. -/
structure StatusVerdict where
  status : CollectionMintStatus
  reason : Option CollectionMintStatusReason
deriving DecidableEq, Repr

/-- A row of the `nft_transfer_events` table, restricted to the columns the
queries of `getAmountMinted` touch.  `fromAddr`/`toAddr` stand for the
quoted SQL columns `"from"` / `"to"`. -/
structure TransferEvent where
  address : String
  tokenId : Int
  isDeleted : Bool
  fromAddr : String
  toAddr : String
  amount : Int
deriving DecidableEq, Repr

/-- A row of the `nft_balances` table (columns used by `getCurrentSupply`). -/
structure BalanceRecord where
  contract : String
  tokenId : Int
  amount : Int
deriving DecidableEq, Repr

/-- A row of the `collections` table; `token_count` is nullable, hence
`Option Int`. -/
structure CollectionRecord where
  id : String
  tokenCount : Option Int
deriving DecidableEq, Repr

/-- The relational store the counters read from. -/
structure Store where
  transfers : List TransferEvent
  balances : List BalanceRecord
  collections : List CollectionRecord
deriving DecidableEq, Repr

/-- Failures of the pg-promise row-fetch combinators: `one` raises when the
result set has no row or several rows, `oneOrNone` when it has several. -/
inductive DbError where
  | noData
  | multipleRows
deriving DecidableEq, Repr

deriving instance DecidableEq for Except

/-- Embedding of `idb.one`: succeeds exactly on a one-row result set. -/
def sqlOne {α : Type} (rows : List α) : Except DbError α :=
  match rows with
  | [r] => Except.ok r
  | [] => Except.error DbError.noData
  | _ => Except.error DbError.multipleRows

/-- Embedding of `idb.oneOrNone`: succeeds on zero or one row. -/
def sqlOneOrNone {α : Type} (rows : List α) : Except DbError (Option α) :=
  match rows with
  | [] => Except.ok none
  | [r] => Except.ok (some r)
  | _ => Except.error DbError.multipleRows

/-- Constant `AddressZero` from `@ethersproject/constants`. -/
def AddressZero : String := "0x0000000000000000000000000000000000000000"

/-- Function `toSafeTimestamp` (helpers.ts lines 19-26): `undefined` for a falsy
input, then `bn(value)`; `undefined` when that equals `0` or is
`>= 9999999999`, else the number itself.  A TS `value` that is absent or
the number `0` is falsy, every other numeric input is truthy. -/
def toSafeTimestamp (value : Option Int) : Option Int :=
  match value with
  | none => none
  | some v =>
    if v = 0 then none
    else if v = 0 ∨ 9999999999 ≤ v then none
    else some v

/-- Function `toSafeNumber` (helpers.ts lines 29-50): `undefined` for a falsy input;
`undefined` when the converted value is one of the sentinel literals
`0`, max(int32), max(uint32), max(uint64), max(uint128), max(uint256);
otherwise the value unchanged (the code returns its decimal string).
The sentinel array literal of helpers.ts lines 35-47 is named here. -/
def sentinelValues : List Int :=
  [0,
    2147483647,
    4294967295,
    18446744073709551615,
    340282366920938463463374607431768211455,
    115792089237316195423570985008687907853269984665640564039457584007913129639935]

def toSafeNumber (value : Option Int) : Option Int :=
  match value with
  | none => none
  | some v =>
    if v = 0 then none
    else if v ∈ sentinelValues then none
    else some v

/-- Row list of the aggregate query of `getAmountMinted` when `tokenId` is
present: `SELECT coalesce(sum(amount), 0) ... WHERE address = contract AND
token_id = tokenId AND is_deleted = 0 AND "from" = from AND "to" = to`.
An ungrouped aggregate `SELECT` yields exactly one row; `coalesce` turns
the `NULL` sum of an empty match into `0`, which the empty `List.sum`
gives directly. -/
def amountMintedRowsWithToken (db : Store) (contract : String) (tid : Int)
    (fromA toA : String) : List Int :=
  [((db.transfers.filter (fun e =>
      e.address = contract ∧ e.tokenId = tid ∧ e.isDeleted = false ∧
        e.fromAddr = fromA ∧ e.toAddr = toA)).map (fun e => e.amount)).sum]

/-- Row list of the aggregate query of `getAmountMinted` when `tokenId` is
absent: same filter without the `token_id` condition. -/
def amountMintedRowsNoToken (db : Store) (contract : String)
    (fromA toA : String) : List Int :=
  [((db.transfers.filter (fun e =>
      e.address = contract ∧ e.isDeleted = false ∧
        e.fromAddr = fromA ∧ e.toAddr = toA)).map (fun e => e.amount)).sum]

/-- Function `getAmountMinted` (helpers.ts lines 117-181): branch on the truthiness
of `collectionMint.tokenId`, fetch the aggregate row with `idb.one`, and
return `bn(amount_minted)`.  (The performance logging has no effect on the
result and is omitted.) -/
def getAmountMinted (db : Store) (collectionMint : CollectionMint)
    (user : String) : Except DbError Int :=
  match collectionMint.tokenId with
  | some tid =>
    sqlOne (amountMintedRowsWithToken db collectionMint.contract tid
      AddressZero user)
  | none =>
    sqlOne (amountMintedRowsNoToken db collectionMint.contract
      AddressZero user)

/-- Row list of the aggregate query of `getCurrentSupply` when `tokenId` is
present: `SELECT coalesce(sum(amount), 0) FROM nft_balances WHERE
contract = contract AND token_id = tokenId AND amount > 0`. -/
def currentSupplyRowsWithToken (db : Store) (contract : String)
    (tid : Int) : List Int :=
  [((db.balances.filter (fun b =>
      b.contract = contract ∧ b.tokenId = tid ∧ 0 < b.amount)).map
        (fun b => b.amount)).sum]

/-- Row list of the collection lookup of `getCurrentSupply`:
`SELECT coalesce(collections.token_count, 0) FROM collections WHERE
collections.id = collection` — one row per matching collection record,
with a `NULL` `token_count` coalesced to `0`. -/
def currentSupplyRowsCollection (db : Store) (collection : String) : List Int :=
  (db.collections.filter (fun c => c.id = collection)).map
    (fun c => c.tokenCount.getD 0)

/-- Function `getCurrentSupply` (helpers.ts lines 183-219): branch on the truthiness
of `tokenId`, fetch with `idb.oneOrNone`, and map a missing row to `0`
(`r ? r.token_count : 0`). -/
def getCurrentSupply (db : Store) (collectionMint : CollectionMint) :
    Except DbError Int :=
  match collectionMint.tokenId with
  | some tid =>
    (sqlOneOrNone (currentSupplyRowsWithToken db collectionMint.contract
      tid)).map (fun r => r.getD 0)
  | none =>
    (sqlOneOrNone (currentSupplyRowsCollection db
      collectionMint.collection)).map (fun r => r.getD 0)

/-- The guard `collectionMint.startTime && currentTime <=
collectionMint.startTime` (helpers.ts line 233): JS truthiness makes the
guard fail when the field is absent or `0`. -/
def startTimeGuard (collectionMint : CollectionMint) (currentTime : Int) :
    Bool :=
  match collectionMint.startTime with
  | none => false
  | some s => s != 0 && decide (currentTime ≤ s)

/-- The guard `collectionMint.endTime && currentTime >=
collectionMint.endTime` (helpers.ts line 236). -/
def endTimeGuard (collectionMint : CollectionMint) (currentTime : Int) :
    Bool :=
  match collectionMint.endTime with
  | none => false
  | some e => e != 0 && decide (e ≤ currentTime)

/-- Function `getStatus` (helpers.ts lines 221-249).  `currentTime` is the value of
`now()`; `supplyQuery` is the result of the `getCurrentSupply` call the
function performs in its max-supply branch, kept as a parameter so that
the claim that the branch alone consults it is expressible.  A `maxSupply`
decimal string is truthy exactly when present (`"0"` is a non-empty,
truthy string), hence the plain `match` on the option. -/
def getStatus (collectionMint : CollectionMint) (currentTime : Int)
    (supplyQuery : Except DbError Int) : Except DbError StatusVerdict :=
  if collectionMint.status = some CollectionMintStatus.closed then
    Except.ok ⟨CollectionMintStatus.closed, none⟩
  else if startTimeGuard collectionMint currentTime then
    Except.ok ⟨CollectionMintStatus.closed,
      some CollectionMintStatusReason.notYetStarted⟩
  else if endTimeGuard collectionMint currentTime then
    Except.ok ⟨CollectionMintStatus.closed,
      some CollectionMintStatusReason.ended⟩
  else
    match collectionMint.maxSupply with
    | some maxSupply =>
      match supplyQuery with
      | Except.error e => Except.error e
      | Except.ok currentSupply =>
        if maxSupply ≤ currentSupply then
          Except.ok ⟨CollectionMintStatus.closed,
            some CollectionMintStatusReason.maxSupplyExceeded⟩
        else
          Except.ok ⟨CollectionMintStatus.open', none⟩
    | none => Except.ok ⟨CollectionMintStatus.open', none⟩

/-- Composition `getStatusDb`: `getStatus` run against the store, with the supply query wired to
`getCurrentSupply` exactly as in the source. -/
def getStatusDb (db : Store) (collectionMint : CollectionMint)
    (currentTime : Int) : Except DbError StatusVerdict :=
  getStatus collectionMint currentTime (getCurrentSupply db collectionMint)

/-! ### Sample descriptors used by the witnesses -/

/-- A descriptor carrying the explicit `"closed"` override together with
timing and supply fields that would, on their own, leave the mint open. -/
def sampleClosedMint : CollectionMint :=
  ⟨"col", "0xabc", none, some 10, some 100, some 5, some CollectionMintStatus.closed⟩

/-- A plain descriptor with an elapsed end time and no override. -/
def sampleEndedMint : CollectionMint :=
  ⟨"col", "0xabc", none, none, some 5, none, none⟩

/-- A descriptor with every optional field absent. -/
def sampleBareMint : CollectionMint :=
  ⟨"col", "0xabc", none, none, none, none, none⟩

/-- A descriptor whose `maxSupply` is the largest uint256 value, used to
check exact arbitrary-precision comparison at the supply rule. -/
def sampleHugeSupplyMint : CollectionMint :=
  ⟨"col", "0xabc", none, none, none,
    some 115792089237316195423570985008687907853269984665640564039457584007913129639935,
    none⟩

/-- A descriptor whose `endTime` is the literal `0`. -/
def sampleZeroEndMint : CollectionMint :=
  ⟨"col", "0xabc", none, none, some 0, none, none⟩

/-- C1: a descriptor with the explicit `"closed"` override resolves to
`{status:"closed"}` with no reason, whatever the timing/supply fields and
the supply query; and in any verdict `getStatus` produces, a reason is
present exactly when the status is closed and the override was not set. -/
theorem C1_closed_override_and_reason_iff (m : CollectionMint) (t : Int)
    (q : Except DbError Int) :
    (m.status = some CollectionMintStatus.closed →
      getStatus m t q = Except.ok ⟨CollectionMintStatus.closed, none⟩) ∧
    (∀ v, getStatus m t q = Except.ok v →
      (v.reason.isSome ↔
        (v.status = CollectionMintStatus.closed ∧
          m.status ≠ some CollectionMintStatus.closed))) := by
  constructor
  · intro h
    simp [getStatus, h]
  · intro v hv
    unfold getStatus at hv
    by_cases h1 : m.status = some CollectionMintStatus.closed
    · rw [if_pos h1] at hv
      cases hv
      simp [h1]
    · rw [if_neg h1] at hv
      by_cases h2 : startTimeGuard m t = true
      · rw [if_pos h2] at hv
        cases hv
        simp [h1]
      · rw [if_neg h2] at hv
        by_cases h3 : endTimeGuard m t = true
        · rw [if_pos h3] at hv
          cases hv
          simp [h1]
        · rw [if_neg h3] at hv
          cases hms : m.maxSupply with
          | none =>
            rw [hms] at hv
            dsimp only at hv
            cases hv
            simp
          | some ms =>
            rw [hms] at hv
            cases q with
            | error e => dsimp only at hv; cases hv
            | ok s =>
              dsimp only at hv
              by_cases h4 : ms ≤ s
              · rw [if_pos h4] at hv
                cases hv
                simp [h1]
              · rw [if_neg h4] at hv
                cases hv
                simp

/-- A descriptor in which all three non-override closing conditions hold at
time `10`: the start time lies ahead, the end time has passed, and one unit
of max supply is set. -/
def sampleNotStartedMint : CollectionMint :=
  ⟨"col", "0xabc", none, some 50, some 5, some 1, none⟩

/-- A descriptor in which both the ended rule and the max-supply rule hold
at time `10` with supply `100`. -/
def sampleEndedFullMint : CollectionMint :=
  ⟨"col", "0xabc", none, none, some 5, some 1, none⟩

/-- Witness for C1 at concrete inputs: the override descriptor resolves to
an unexplained closed verdict, and the ended verdict of a non-override
descriptor carries a reason exactly as the iff states. -/
theorem C1_witness :
    getStatus sampleClosedMint 7 (Except.ok 0) =
      Except.ok ⟨CollectionMintStatus.closed, none⟩ ∧
    ((some CollectionMintStatusReason.ended).isSome ↔
      (CollectionMintStatus.closed = CollectionMintStatus.closed ∧
        sampleEndedMint.status ≠ some CollectionMintStatus.closed)) :=
  ⟨(C1_closed_override_and_reason_iff sampleClosedMint 7 (Except.ok 0)).1 rfl,
    (C1_closed_override_and_reason_iff sampleEndedMint 10 (Except.ok 0)).2
      ⟨CollectionMintStatus.closed, some CollectionMintStatusReason.ended⟩ rfl⟩

/-- C4: `getStatus` is an ordered guard chain with priority
override > not-yet-started > ended > max-supply-exceeded, and its result is
independent of the supply query unless the override is unset, both timing
guards pass, and `maxSupply` is present. -/
theorem C4_ordered_guard_chain (m : CollectionMint) (t : Int) :
    (m.status = some CollectionMintStatus.closed → ∀ q,
      getStatus m t q = Except.ok ⟨CollectionMintStatus.closed, none⟩) ∧
    (m.status ≠ some CollectionMintStatus.closed → startTimeGuard m t = true →
      ∀ q, getStatus m t q = Except.ok ⟨CollectionMintStatus.closed,
        some CollectionMintStatusReason.notYetStarted⟩) ∧
    (m.status ≠ some CollectionMintStatus.closed → startTimeGuard m t = false →
      endTimeGuard m t = true →
      ∀ q, getStatus m t q = Except.ok ⟨CollectionMintStatus.closed,
        some CollectionMintStatusReason.ended⟩) ∧
    ((m.status = some CollectionMintStatus.closed ∨ startTimeGuard m t = true ∨
        endTimeGuard m t = true ∨ m.maxSupply = none) →
      ∀ q1 q2, getStatus m t q1 = getStatus m t q2) := by
  refine ⟨?_, ?_, ?_, ?_⟩
  · intro h q
    simp [getStatus, h]
  · intro h1 h2 q
    simp [getStatus, h1, h2]
  · intro h1 h2 h3 q
    simp [getStatus, h1, h2, h3]
  · intro h q1 q2
    rcases h with h | h | h | h
    · simp [getStatus, h]
    · simp [getStatus, h]
    · simp [getStatus, h]
    · simp [getStatus, h]

/-- Witness for C4: with several closing conditions holding at once the
earliest rule's reason is reported, and with the ended rule firing the
verdict does not depend on the supply query at all. -/
theorem C4_witness :
    getStatus sampleNotStartedMint 10 (Except.ok 100) =
      Except.ok ⟨CollectionMintStatus.closed,
        some CollectionMintStatusReason.notYetStarted⟩ ∧
    getStatus sampleEndedFullMint 10 (Except.ok 100) =
      Except.ok ⟨CollectionMintStatus.closed,
        some CollectionMintStatusReason.ended⟩ ∧
    getStatus sampleEndedMint 10 (Except.ok 0) =
      getStatus sampleEndedMint 10 (Except.error DbError.noData) :=
  ⟨(C4_ordered_guard_chain sampleNotStartedMint 10).2.1 (by decide) (by decide)
      (Except.ok 100),
    (C4_ordered_guard_chain sampleEndedFullMint 10).2.2.1 (by decide) rfl
      (by decide) (Except.ok 100),
    (C4_ordered_guard_chain sampleEndedMint 10).2.2.2
      (Or.inr (Or.inr (Or.inl (by decide)))) (Except.ok 0)
      (Except.error DbError.noData)⟩

/-- C3: past the override and timing guards, a present `maxSupply` closes
the mint with reason `max-supply-exceeded` exactly when
`maxSupply <= currentSupply` (equality included); an absent `maxSupply`, or
a supply strictly below it, leaves the mint open.  The comparison is over
`Int`, i.e. exact arbitrary-precision arithmetic. -/
theorem C3_max_supply_rule (m : CollectionMint) (t : Int)
    (hov : m.status ≠ some CollectionMintStatus.closed)
    (hs : startTimeGuard m t = false) (he : endTimeGuard m t = false) :
    (∀ ms s, m.maxSupply = some ms → ms ≤ s →
      getStatus m t (Except.ok s) = Except.ok ⟨CollectionMintStatus.closed,
        some CollectionMintStatusReason.maxSupplyExceeded⟩) ∧
    (∀ ms s, m.maxSupply = some ms → s < ms →
      getStatus m t (Except.ok s) =
        Except.ok ⟨CollectionMintStatus.open', none⟩) ∧
    (m.maxSupply = none → ∀ q,
      getStatus m t q = Except.ok ⟨CollectionMintStatus.open', none⟩) := by
  refine ⟨?_, ?_, ?_⟩
  · intro ms s hms hle
    simp [getStatus, hov, hs, he, hms, hle]
  · intro ms s hms hlt
    simp [getStatus, hov, hs, he, hms, not_le.mpr hlt]
  · intro hms q
    simp [getStatus, hov, hs, he, hms]

/-- Witness for C3 at the largest uint256 value: supply exactly equal to
`maxSupply` closes the mint, supply one below leaves it open — an exact
comparison no 64-bit or floating-point arithmetic could make — and a
descriptor with no `maxSupply` is open without any supply query result. -/
theorem C3_witness :
    getStatus sampleHugeSupplyMint 10
        (Except.ok 115792089237316195423570985008687907853269984665640564039457584007913129639935) =
      Except.ok ⟨CollectionMintStatus.closed,
        some CollectionMintStatusReason.maxSupplyExceeded⟩ ∧
    getStatus sampleHugeSupplyMint 10
        (Except.ok 115792089237316195423570985008687907853269984665640564039457584007913129639934) =
      Except.ok ⟨CollectionMintStatus.open', none⟩ ∧
    getStatus sampleBareMint 10 (Except.error DbError.noData) =
      Except.ok ⟨CollectionMintStatus.open', none⟩ :=
  ⟨(C3_max_supply_rule sampleHugeSupplyMint 10 (by decide) rfl rfl).1 _ _ rfl
      (le_refl _),
    (C3_max_supply_rule sampleHugeSupplyMint 10 (by decide) rfl rfl).2.1 _ _ rfl
      (by decide),
    (C3_max_supply_rule sampleBareMint 10 (by decide) rfl rfl).2.2 rfl
      (Except.error DbError.noData)⟩

/-- C8: when the override is unset, both timing guards pass and `maxSupply`
is present, a failing supply query makes `getStatus` fail with that very
error; the failure is never turned into an open or closed verdict. -/
theorem C8_supply_failure_propagates (m : CollectionMint) (t : Int)
    (e : DbError) (ms : Int)
    (hov : m.status ≠ some CollectionMintStatus.closed)
    (hs : startTimeGuard m t = false) (he : endTimeGuard m t = false)
    (hms : m.maxSupply = some ms) :
    getStatus m t (Except.error e) = Except.error e ∧
    ∀ v, getStatus m t (Except.error e) ≠ Except.ok v := by
  have h : getStatus m t (Except.error e) = Except.error e := by
    simp [getStatus, hov, hs, he, hms]
  refine ⟨h, fun v hv => ?_⟩
  rw [h] at hv
  cases hv

/-- Witness for C8: a `noData` failure of the supply query surfaces
unchanged from `getStatus` on a max-supply descriptor. -/
theorem C8_witness :
    getStatus sampleHugeSupplyMint 10 (Except.error DbError.noData) =
      Except.error DbError.noData :=
  (C8_supply_failure_propagates sampleHugeSupplyMint 10 DbError.noData _
    (by decide) rfl rfl rfl).1

/-- Counterexample to C2 as stated: in `sampleZeroEndMint` the `endTime`
field is present with value `0`, the evaluation time `5` satisfies
`now >= endTime`, and there is no `"closed"` override, yet `getStatus`
returns the open verdict rather than `{status:"closed", reason:"ended"}`:
the guard tests JS truthiness of the field, and `0` is falsy. -/
theorem C2_counterexample :
    sampleZeroEndMint.status ≠ some CollectionMintStatus.closed ∧
    sampleZeroEndMint.endTime = some 0 ∧ (0 : Int) ≤ 5 ∧
    getStatus sampleZeroEndMint 5 (Except.ok 0) =
      Except.ok ⟨CollectionMintStatus.open', none⟩ ∧
    getStatus sampleZeroEndMint 5 (Except.ok 0) ≠
      Except.ok ⟨CollectionMintStatus.closed,
        some CollectionMintStatusReason.ended⟩ := by
  refine ⟨by decide, rfl, by decide, rfl, by decide⟩

/-- C2 amended: for a descriptor without the `"closed"` override, a present
and non-zero `startTime` with `now <= startTime` yields
`{status:"closed", reason:"not-yet-started"}`; otherwise (the start rule
not firing) a present and non-zero `endTime` with `now >= endTime` yields
`{status:"closed", reason:"ended"}`. -/
theorem C2_amended_timing_rules (m : CollectionMint) (t : Int)
    (q : Except DbError Int)
    (hov : m.status ≠ some CollectionMintStatus.closed) :
    (∀ s, m.startTime = some s → s ≠ 0 → t ≤ s →
      getStatus m t q = Except.ok ⟨CollectionMintStatus.closed,
        some CollectionMintStatusReason.notYetStarted⟩) ∧
    (startTimeGuard m t = false →
      ∀ e, m.endTime = some e → e ≠ 0 → e ≤ t →
        getStatus m t q = Except.ok ⟨CollectionMintStatus.closed,
          some CollectionMintStatusReason.ended⟩) := by
  constructor
  · intro s hst hne hle
    have hg : startTimeGuard m t = true := by
      simp [startTimeGuard, hst, hne, hle]
    simp [getStatus, hov, hg]
  · intro hsg e het hne hle
    have hg : endTimeGuard m t = true := by
      simp [endTimeGuard, het, hne, hle]
    simp [getStatus, hov, hsg, hg]

/-- Witness for the amended C2: a future non-zero start time closes with
`not-yet-started`, and a past non-zero end time closes with `ended`. -/
theorem C2_witness :
    getStatus sampleNotStartedMint 10 (Except.ok 0) =
      Except.ok ⟨CollectionMintStatus.closed,
        some CollectionMintStatusReason.notYetStarted⟩ ∧
    getStatus sampleEndedMint 10 (Except.ok 0) =
      Except.ok ⟨CollectionMintStatus.closed,
        some CollectionMintStatusReason.ended⟩ :=
  ⟨(C2_amended_timing_rules sampleNotStartedMint 10 (Except.ok 0)
      (by decide)).1 50 rfl (by decide) (by decide),
    (C2_amended_timing_rules sampleEndedMint 10 (Except.ok 0)
      (by decide)).2 rfl 5 rfl (by decide) (by decide)⟩

/-- C9: a zero timestamp behaves as an absent one.  A `startTime` of `0`
never produces the `not-yet-started` reason and an `endTime` of `0` never
produces the `ended` reason; a descriptor whose only candidate closing
condition is `endTime = 0` resolves to open. -/
theorem C9_zero_timestamp_is_absent (m : CollectionMint) (t : Int)
    (q : Except DbError Int) :
    (m.startTime = some 0 → ∀ v, getStatus m t q = Except.ok v →
      v.reason ≠ some CollectionMintStatusReason.notYetStarted) ∧
    (m.endTime = some 0 → ∀ v, getStatus m t q = Except.ok v →
      v.reason ≠ some CollectionMintStatusReason.ended) ∧
    (m.endTime = some 0 → m.status ≠ some CollectionMintStatus.closed →
      startTimeGuard m t = false →
      (m.maxSupply = none ∨ ∃ ms s, m.maxSupply = some ms ∧
        q = Except.ok s ∧ s < ms) →
      getStatus m t q = Except.ok ⟨CollectionMintStatus.open', none⟩) := by
  have hsg : ∀ x, m.startTime = some (0 : Int) →
      startTimeGuard m x = false := by
    intro x h
    simp [startTimeGuard, h]
  have heg : ∀ x, m.endTime = some (0 : Int) →
      endTimeGuard m x = false := by
    intro x h
    simp [endTimeGuard, h]
  refine ⟨?_, ?_, ?_⟩
  · intro h v hv hr
    unfold getStatus at hv
    rw [hsg t h] at hv
    by_cases h1 : m.status = some CollectionMintStatus.closed
    · rw [if_pos h1] at hv
      cases hv
      cases hr
    · rw [if_neg h1, if_neg (by simp)] at hv
      by_cases h3 : endTimeGuard m t = true
      · rw [if_pos h3] at hv
        cases hv
        cases hr
      · rw [if_neg h3] at hv
        cases hms : m.maxSupply with
        | none =>
          rw [hms] at hv
          dsimp only at hv
          cases hv
          cases hr
        | some ms =>
          rw [hms] at hv
          cases q with
          | error e => dsimp only at hv; cases hv
          | ok s =>
            dsimp only at hv
            by_cases h4 : ms ≤ s
            · rw [if_pos h4] at hv
              cases hv
              cases hr
            · rw [if_neg h4] at hv
              cases hv
              cases hr
  · intro h v hv hr
    unfold getStatus at hv
    rw [heg t h] at hv
    by_cases h1 : m.status = some CollectionMintStatus.closed
    · rw [if_pos h1] at hv
      cases hv
      cases hr
    · rw [if_neg h1] at hv
      by_cases h2 : startTimeGuard m t = true
      · rw [if_pos h2] at hv
        cases hv
        cases hr
      · rw [if_neg h2, if_neg (by simp)] at hv
        cases hms : m.maxSupply with
        | none =>
          rw [hms] at hv
          dsimp only at hv
          cases hv
          cases hr
        | some ms =>
          rw [hms] at hv
          cases q with
          | error e => dsimp only at hv; cases hv
          | ok s =>
            dsimp only at hv
            by_cases h4 : ms ≤ s
            · rw [if_pos h4] at hv
              cases hv
              cases hr
            · rw [if_neg h4] at hv
              cases hv
              cases hr
  · intro he hov hsf hsup
    rcases hsup with hms | ⟨ms, s, hms, hq, hlt⟩
    · simp [getStatus, hov, hsf, heg t he, hms]
    · subst hq
      simp [getStatus, hov, hsf, heg t he, hms, not_le.mpr hlt]

/-- Witness for C9: the zero-`endTime` descriptor resolves to open at time
`5`, where a presence-only reading of the ended rule would have closed it. -/
theorem C9_witness :
    getStatus sampleZeroEndMint 5 (Except.ok 0) =
      Except.ok ⟨CollectionMintStatus.open', none⟩ :=
  (C9_zero_timestamp_is_absent sampleZeroEndMint 5 (Except.ok 0)).2.2 rfl
    (by decide) rfl (Or.inl rfl)

/-- C5: `toSafeTimestamp` is absent exactly on a missing input, a zero
input, or an input at or above `9999999999`, and passes every other input
through unchanged; `toSafeNumber` is absent exactly on a missing input or
one of the six sentinel values (zero among them), and passes every other
input through unchanged. -/
theorem C5_sanitizer_roundtrip (v : Option Int) :
    (toSafeTimestamp v = none ↔
      (v = none ∨ v = some 0 ∨ ∃ x, v = some x ∧ 9999999999 ≤ x)) ∧
    (∀ x, v = some x → x ≠ 0 → x < 9999999999 →
      toSafeTimestamp v = some x) ∧
    (toSafeNumber v = none ↔
      (v = none ∨ ∃ x, v = some x ∧ x ∈ sentinelValues)) ∧
    (∀ x, v = some x → x ∉ sentinelValues → toSafeNumber v = some x) := by
  cases v with
  | none => simp [toSafeTimestamp, toSafeNumber]
  | some x =>
    refine ⟨?_, ?_, ?_, ?_⟩
    · by_cases h0 : x = 0
      · subst h0
        simp [toSafeTimestamp]
      · by_cases hge : (9999999999 : Int) ≤ x
        · simp [toSafeTimestamp, h0, hge]
        · simp [toSafeTimestamp, h0, hge]
    · intro y hy hne hlt
      cases hy
      simp [toSafeTimestamp, hne, not_le.mpr hlt]
    · by_cases h0 : x = 0
      · subst h0
        simp [toSafeNumber, sentinelValues]
      · by_cases hmem : x ∈ sentinelValues
        · constructor
          · intro _
            exact Or.inr ⟨x, rfl, hmem⟩
          · intro _
            simp [toSafeNumber, h0, hmem]
        · constructor
          · intro h
            simp [toSafeNumber, h0, hmem] at h
          · rintro (h | ⟨y, hy, hymem⟩)
            · cases h
            · cases hy
              exact absurd hymem hmem
    · intro y hy hmem
      obtain rfl : x = y := Option.some.inj hy
      have h0 : x ≠ 0 := fun h => hmem (h ▸ by simp [sentinelValues])
      simp [toSafeNumber, h0, hmem]

/-- Witness for C5: a plain timestamp and the value one below max(uint32)
pass through, matching the spec's concrete scenario. -/
theorem C5_witness :
    toSafeTimestamp (some 1700000000) = some 1700000000 ∧
    toSafeNumber (some 4294967294) = some 4294967294 :=
  ⟨(C5_sanitizer_roundtrip (some 1700000000)).2.1 1700000000 rfl (by decide)
      (by decide),
    (C5_sanitizer_roundtrip (some 4294967294)).2.2.2 4294967294 rfl (by decide)⟩

/-- Predicate following the words of the spec: a mint transfer record for
descriptor `m` and user `user` has the contract as address, the zero
address as sender, the user as recipient, is not deleted, and — when the
descriptor carries a `tokenId` — that token id. -/
def specMintTransferMatch (m : CollectionMint) (user : String)
    (e : TransferEvent) : Bool :=
  decide (e.address = m.contract) && decide (e.fromAddr = AddressZero) &&
    decide (e.toAddr = user) && !e.isDeleted &&
    (match m.tokenId with
      | some tid => decide (e.tokenId = tid)
      | none => true)

/-- The fetched aggregate of `getAmountMinted` is the sum of `amount` over
exactly the records matched by `specMintTransferMatch`. -/
theorem getAmountMinted_eq_spec (db : Store) (m : CollectionMint)
    (user : String) :
    getAmountMinted db m user =
      Except.ok (((db.transfers.filter (specMintTransferMatch m user)).map
        (fun e => e.amount)).sum) := by
  cases htid : m.tokenId with
  | some tid =>
    unfold getAmountMinted
    rw [htid]
    simp only [amountMintedRowsWithToken, sqlOne]
    congr 2
    refine congrArg (List.map (fun e : TransferEvent => e.amount))
      (List.filter_congr ?_)
    intro e _
    rw [Bool.eq_iff_iff]
    simp [specMintTransferMatch, htid]
    tauto
  | none =>
    unfold getAmountMinted
    rw [htid]
    simp only [amountMintedRowsNoToken, sqlOne]
    congr 2
    refine congrArg (List.map (fun e : TransferEvent => e.amount))
      (List.filter_congr ?_)
    intro e _
    rw [Bool.eq_iff_iff]
    simp [specMintTransferMatch, htid]
    tauto

/-- C6: `getAmountMinted` equals the sum of `amount` over exactly the
transfer records with the descriptor's contract as address, the zero
address as sender, the given user as recipient, not deleted, and the
descriptor's token id when one is present; a deleted record or one with a
non-zero-address sender never changes the count. -/
theorem C6_amount_minted_filtered_sum (db : Store) (m : CollectionMint)
    (user : String) :
    getAmountMinted db m user =
      Except.ok (((db.transfers.filter (specMintTransferMatch m user)).map
        (fun e => e.amount)).sum) ∧
    (∀ e, e.isDeleted = true ∨ e.fromAddr ≠ AddressZero →
      getAmountMinted ⟨e :: db.transfers, db.balances, db.collections⟩ m
          user =
        getAmountMinted db m user) := by
  refine ⟨getAmountMinted_eq_spec db m user, ?_⟩
  intro e he
  rw [getAmountMinted_eq_spec, getAmountMinted_eq_spec]
  have hmatch : specMintTransferMatch m user e = false := by
    rcases he with h | h
    · simp [specMintTransferMatch, h]
    · simp [specMintTransferMatch, h]
  simp [List.filter_cons, hmatch]

/-- A genuine mint transfer: from the zero address to the user. -/
def sampleMintTransfer : TransferEvent :=
  ⟨"0xabc", 1, false, AddressZero, "0xuser", 2⟩

/-- A secondary-market transfer: the sender is not the zero address. -/
def sampleSecondaryTransfer : TransferEvent :=
  ⟨"0xabc", 1, false, "0xseller", "0xuser", 3⟩

/-- A reorg-deleted mint transfer. -/
def sampleDeletedTransfer : TransferEvent :=
  ⟨"0xabc", 1, true, AddressZero, "0xuser", 7⟩

/-- A small store: one mint and one secondary transfer, three balance rows
(one non-positive, one for another token), and one collection record with
a cached token count of `42`. -/
def sampleStore : Store :=
  ⟨[sampleMintTransfer, sampleSecondaryTransfer],
    [⟨"0xabc", 1, 4⟩, ⟨"0xabc", 1, -2⟩, ⟨"0xabc", 2, 9⟩],
    [⟨"col", some 42⟩]⟩

/-- A descriptor scoped to token `1` of the sample contract. -/
def sampleTokenMint : CollectionMint :=
  ⟨"col", "0xabc", some 1, none, none, none, none⟩

/-- The empty store. -/
def emptyStore : Store := ⟨[], [], []⟩

/-- Witness for C6: on the sample store only the zero-address, non-deleted
transfer is counted (amount `2`), and prepending a deleted record leaves
the count unchanged. -/
theorem C6_witness :
    getAmountMinted sampleStore sampleBareMint "0xuser" = Except.ok 2 ∧
    getAmountMinted ⟨sampleDeletedTransfer :: sampleStore.transfers,
        sampleStore.balances, sampleStore.collections⟩ sampleBareMint
        "0xuser" =
      getAmountMinted sampleStore sampleBareMint "0xuser" :=
  ⟨((C6_amount_minted_filtered_sum sampleStore sampleBareMint "0xuser").1).trans
      (by decide),
    (C6_amount_minted_filtered_sum sampleStore sampleBareMint "0xuser").2
      sampleDeletedTransfer (Or.inl rfl)⟩

/-- C10: when no transfer record matches the mint filter, the aggregate
query still yields its single coalesced row, so `getAmountMinted` returns
`0` instead of failing with a no-data error. -/
theorem C10_no_matching_rows_yield_zero (db : Store) (m : CollectionMint)
    (user : String)
    (h : ∀ e ∈ db.transfers, specMintTransferMatch m user e = false) :
    getAmountMinted db m user = Except.ok 0 := by
  rw [getAmountMinted_eq_spec]
  have hnil : db.transfers.filter (specMintTransferMatch m user) = [] := by
    rw [List.filter_eq_nil_iff]
    intro e he
    simp [h e he]
  rw [hnil]
  rfl

/-- Witness for C10: a store holding only a deleted transfer has no
matching record, and the count is `Except.ok 0`, not an error. -/
theorem C10_witness :
    getAmountMinted ⟨[sampleDeletedTransfer], [], []⟩ sampleBareMint
      "0xuser" = Except.ok 0 :=
  C10_no_matching_rows_yield_zero ⟨[sampleDeletedTransfer], [], []⟩
    sampleBareMint "0xuser" (by decide)

/-- C7: with a token id, `getCurrentSupply` is the sum of the positive
balance amounts of `(contract, tokenId)` (so `0` when there is none);
without one it is the collection's cached token count, `0` when the
collection record is absent.  The hypothesis says the collection id
matches at most one record, as a primary-key lookup does. -/
theorem C7_current_supply_characterization (db : Store)
    (m : CollectionMint)
    (huniq : (db.collections.filter (fun c => c.id = m.collection)).length ≤ 1) :
    (∀ tid, m.tokenId = some tid →
      getCurrentSupply db m = Except.ok (((db.balances.filter (fun b =>
        b.contract = m.contract ∧ b.tokenId = tid ∧ 0 < b.amount)).map
          (fun b => b.amount)).sum)) ∧
    (m.tokenId = none →
      getCurrentSupply db m = Except.ok
        (match db.collections.filter (fun c => c.id = m.collection) with
          | [] => 0
          | c :: _ => c.tokenCount.getD 0)) := by
  constructor
  · intro tid htid
    unfold getCurrentSupply
    rw [htid]
    rfl
  · intro htid
    unfold getCurrentSupply
    rw [htid]
    cases hf : db.collections.filter (fun c => c.id = m.collection) with
    | nil => simp [currentSupplyRowsCollection, sqlOneOrNone, hf, Except.map]
    | cons c rest =>
      cases rest with
      | nil => simp [currentSupplyRowsCollection, sqlOneOrNone, hf, Except.map]
      | cons c2 r2 =>
        rw [hf] at huniq
        simp at huniq

/-- Witness for C7: on the sample store the per-token supply of token `1`
sums the positive balances only (`4`), and the whole-collection supply
reads the cached count `42`. -/
theorem C7_witness :
    getCurrentSupply sampleStore sampleTokenMint = Except.ok 4 ∧
    getCurrentSupply sampleStore sampleBareMint = Except.ok 42 :=
  ⟨((C7_current_supply_characterization sampleStore sampleTokenMint
        (by decide)).1 1 rfl).trans (by decide),
    ((C7_current_supply_characterization sampleStore sampleBareMint
        (by decide)).2 rfl).trans (by decide)⟩
